import Mathlib

/-!
Verification development for the dew-point fan controller
(`dew_point_fan.go`).  The control loop is embedded shallowly: the
per-cycle state is a structure, each phase of the loop body (sensor
read, spike check, hysteresis/safety decision, remote override,
actuation) is a Lean function translated from the corresponding lines
of the source, with Go `float32`/`float64` arithmetic modelled over ℚ
for the decision logic and over ℝ for the transcendental dew-point
formula.  The dew-point calculator is passed as a function parameter
to the (computable) loop embedding, since its real-valued definition
does not land in ℚ; all loop-level theorems hold for every such
function, which is strictly stronger than holding for the actual one.
-/

namespace DewPointFan

/-- Constant `DIFF_MIN` (line 48): minimal dew point difference. -/
def DIFF_MIN : ℚ := 3

/-- Constant `HYSTERESIS` (line 49): difference between switching on/off. -/
def HYSTERESIS : ℚ := 1

/-- Constant `HUM_INSIDE_MIN` (line 50): minimal inside humidity for venting. -/
def HUM_INSIDE_MIN : ℚ := 50

/-- Constant `TEMP_INSIDE_MIN` (line 51): minimal inside temperature for venting. -/
def TEMP_INSIDE_MIN : ℚ := 10

/-- Constant `TEMP_OUTSIDE_MIN` (line 52): minimal outside temperature for venting. -/
def TEMP_OUTSIDE_MIN : ℚ := -10

/-- Constant `DEF_TEMP` (line 53): default (sentinel) temperature. -/
def DEF_TEMP : ℚ := -200

/-- Constant `DEF_HUM` (line 54): default (sentinel) humidity. -/
def DEF_HUM : ℚ := -1

/-- Function `getTempCorrections` (lines 81-83): per-sensor additive
temperature corrections, index 0 = inside, 1 = outside. -/
def getTempCorrections : List ℚ := [-4, 0]

/-- Function `getHumCorrections` (lines 87-89): per-sensor additive
humidity corrections, index 0 = inside, 1 = outside. -/
def getHumCorrections : List ℚ := [10, -6]

/-- Go `math.Round`: rounds to the nearest integer, halves away from zero. -/
def goRound (x : ℚ) : ℤ :=
  if 0 ≤ x then ⌊x + 1 / 2⌋ else -⌊-x + 1 / 2⌋

/-- Function `roundFloat32` (lines 92-95): rounds to `p` decimal digits by
scaling with `math.Pow(10, p)`, applying `math.Round` and scaling back. -/
def roundFloat32 (x : ℚ) (p : ℕ) : ℚ :=
  (goRound (x * 10 ^ p) : ℚ) / 10 ^ p

/-- Result of the Go call
`temperatures[i], humidities[i], retried[i], err = dht.ReadDHTxxWithRetry(...)`
(line 383).  Go multiple assignment stores the returned `temp`/`hum`
values into the arrays even when `err != nil`, so the model carries the
returned values together with the error flag. -/
structure ReadResult where
  temp : ℚ
  hum : ℚ
  retried : ℕ
  failed : Bool
deriving Repr, DecidableEq

/-- Per-sensor outcome of one iteration of the read loop (lines 376-403):
the values stored back into `temperatures[i]`, `humidities[i]`,
`dewpoints[i]`, and this sensor's contribution to `readingsGood`. -/
structure SensorOut where
  temp : ℚ
  hum : ℚ
  dew : ℚ
  good : Bool
deriving Repr, DecidableEq

/-- One iteration of the sensor loop body (lines 382-402) for a sensor
with corrections `corrT`, `corrH` and previously stored dew point
`prevDew`.  On a failed read the raw returned values are still assigned
(Go multiple assignment) and `readingsGood` is cleared; on success the
corrected, rounded values are stored.  The dew point is recomputed via
`dpf` only when the stored values pass the sentinel guard
(line 393) and the plausibility range check (line 394); an out-of-range
temperature clears `readingsGood`. -/
def readSensor (dpf : ℚ → ℚ → ℚ) (corrT corrH : ℚ) (prevDew : ℚ)
    (r : ReadResult) : SensorOut :=
  let t := if r.failed then r.temp else roundFloat32 (r.temp + corrT) 1
  let h := if r.failed then r.hum else roundFloat32 (r.hum + corrH) 1
  if DEF_TEMP < t ∧ DEF_HUM < h then
    if t < -20 ∨ 40 < t then
      { temp := t, hum := h, dew := prevDew, good := false }
    else
      { temp := t, hum := h, dew := roundFloat32 (dpf t h) 1, good := !r.failed }
  else
    { temp := t, hum := h, dew := prevDew, good := !r.failed }

/-- Mirror of the control flow of `readSensor` recording the arguments
at which the dew-point calculator `calcDewPoint` is invoked (line 398):
`some (t, h)` when the guarded call happens, `none` when it does not. -/
def readSensorCallArgs (corrT corrH : ℚ) (r : ReadResult) : Option (ℚ × ℚ) :=
  let t := if r.failed then r.temp else roundFloat32 (r.temp + corrT) 1
  let h := if r.failed then r.hum else roundFloat32 (r.hum + corrH) 1
  if DEF_TEMP < t ∧ DEF_HUM < h then
    if t < -20 ∨ 40 < t then none
    else some (t, h)
  else none

/-- Mutable state of the control loop that survives from one cycle to
the next: `fanShouldBeOn` (line 276) and the arrays `temperatures`,
`humidities`, `dewpoints`, `lastDewpoints` (lines 298-301), index 0 =
inside, 1 = outside. -/
structure LoopState where
  fanShouldBeOn : Bool
  temp0 : ℚ
  temp1 : ℚ
  hum0 : ℚ
  hum1 : ℚ
  dew0 : ℚ
  dew1 : ℚ
  lastDew0 : ℚ
  lastDew1 : ℚ
deriving Repr, DecidableEq

/-- External inputs consumed by one loop cycle: the two sensor read
results (line 383), the value of the global `remoteOverride` as read at
line 464 (set unvalidated by the HTTP override handler, line 364), and
the level of input pin GPIO22 (line 483). -/
structure CycleInput where
  read0 : ReadResult
  read1 : ReadResult
  remoteOverride : ℤ
  pin22High : Bool
deriving Repr, DecidableEq

/-- Spike check condition (lines 406-407): either location's dew point
differs from the last stored dew point by more than 1. -/
def spikeDetected (s : LoopState) : Bool :=
  1 < |s.dew0 - s.lastDew0| ∨ 1 < |s.dew1 - s.lastDew1|

/-- Hysteresis switching (lines 410-416): turn on above
`DIFF_MIN + HYSTERESIS`, turn off below `DIFF_MIN`, otherwise keep the
previous value.  The two `if` statements of the source are applied in
sequence, exactly as written. -/
def hysteresisStep (deltaTP : ℚ) (fan : Bool) : Bool :=
  let f := if DIFF_MIN + HYSTERESIS < deltaTP then true else fan
  if deltaTP < DIFF_MIN then false else f

/-- Decision block in the accepted (no-spike) branch (lines 410-426):
hysteresis on `deltaTP = dewpoints[0] - dewpoints[1]` followed by the
three unconditional safety-floor checks, in source order. -/
def decisionCore (s : LoopState) : Bool :=
  let f := hysteresisStep (s.dew0 - s.dew1) s.fanShouldBeOn
  let f := if s.temp0 < TEMP_INSIDE_MIN then false else f
  let f := if s.temp1 < TEMP_OUTSIDE_MIN then false else f
  if s.hum0 < HUM_INSIDE_MIN then false else f

/-- Body of `if readingsGood { ... }` (lines 404-462) applied to the
post-read state: when a spike is detected only the warning is logged
and `fanShouldBeOn` is untouched, otherwise the decision block runs;
in both cases `lastDewpoints` is then assigned the cycle's dew points
(lines 460-461, which sit after the spike `if/else`). -/
def decisionPhase (s : LoopState) (readingsGood : Bool) : LoopState :=
  if readingsGood then
    if spikeDetected s then
      { s with lastDew0 := s.dew0, lastDew1 := s.dew1 }
    else
      { s with fanShouldBeOn := decisionCore s,
               lastDew0 := s.dew0, lastDew1 := s.dew1 }
  else s

/-- Sensor-read phase of the cycle (lines 374-403): runs `readSensor`
for both sensors with their respective corrections and returns the
updated state together with the `readingsGood` flag. -/
def readPhase (dpf : ℚ → ℚ → ℚ) (s : LoopState) (inp : CycleInput) :
    LoopState × Bool :=
  let o0 := readSensor dpf (getTempCorrections.getD 0 0)
      (getHumCorrections.getD 0 0) s.dew0 inp.read0
  let o1 := readSensor dpf (getTempCorrections.getD 1 0)
      (getHumCorrections.getD 1 0) s.dew1 inp.read1
  ({ s with temp0 := o0.temp, hum0 := o0.hum, dew0 := o0.dew,
            temp1 := o1.temp, hum1 := o1.hum, dew1 := o1.dew },
   o0.good && o1.good)

/-- Remote override application (lines 464-470): a positive
`remoteOverride` replaces `fanShouldBeOn`, value 1 forcing `true` and
any other positive value forcing `false`; a non-positive value leaves
the computed decision in effect. -/
def applyRemoteOverride (ro : ℤ) (fan : Bool) : Bool :=
  if 0 < ro then (if ro = 1 then true else false) else fan

/-- Observable outcome of one loop cycle: the successor state, whether
pin GPIO25 is driven low (the relay is active low, so low = fan on,
lines 471-476), and the manual-switch status sensed from GPIO22
(lines 483-489: a high pin means the fan is off). -/
structure CycleResult where
  state : LoopState
  fanRelayLow : Bool
  fanStatus : Bool
deriving Repr, DecidableEq

/-- One full cycle of the control loop body (lines 373-501): sensor
reads, the `readingsGood` block with spike check and decision, the
remote-override application (which writes `fanShouldBeOn` itself, so it
persists into the next cycle), the relay output and the manual-switch
sense. -/
def cycleStep (dpf : ℚ → ℚ → ℚ) (s : LoopState) (inp : CycleInput) :
    CycleResult :=
  let rp := readPhase dpf s inp
  let s2 := decisionPhase rp.1 rp.2
  let fan := applyRemoteOverride inp.remoteOverride s2.fanShouldBeOn
  { state := { s2 with fanShouldBeOn := fan },
    fanRelayLow := fan,
    fanStatus := !inp.pin22High }

/-- Magnus constant `a` as assigned by the branch at lines 155-161:
`7.5` when `t64 >= 0`, else (`t64 < 0`) `7.6`. -/
noncomputable def aConst (t : ℝ) : ℝ :=
  if 0 ≤ t then 7.5 else 7.6

/-- Magnus constant `b` as assigned by the branch at lines 155-161:
`237.3` when `t64 >= 0`, else (`t64 < 0`) `240.7`. -/
noncomputable def bConst (t : ℝ) : ℝ :=
  if 0 ≤ t then 237.3 else 240.7

/-- Function `calcDewPoint` (lines 149-175), over ℝ: saturation vapour
pressure `sdd = 6.1078 * 10^((a*t)/(b+t))`, vapour pressure
`dd = sdd * (r/100)`, `v = log10(dd / 6.1078)`, dew point
`(b*v)/(a-v)`. -/
noncomputable def calcDewPoint (t r : ℝ) : ℝ :=
  let a := aConst t
  let b := bConst t
  let sdd := 6.1078 * (10 : ℝ) ^ ((a * t) / (b + t))
  let dd := sdd * (r / 100)
  let v := Real.logb 10 (dd / 6.1078)
  (b * v) / (a - v)

/-- Modelled from the spec (section 4.1), for comparison with
`calcDewPoint`: choose `(a, b) = (7.5, 237.3)` when `t ≥ 0`, else
`(7.6, 240.7)`; `sdd = 6.1078 × 10^(a·t/(b+t))`; `dd = sdd × (r/100)`;
`v = log10(dd / 6.1078)`; dew point `= (b·v)/(a−v)`. -/
noncomputable def dewPointSpec (t r : ℝ) : ℝ :=
  let ab : ℝ × ℝ := if 0 ≤ t then (7.5, 237.3) else (7.6, 240.7)
  let sdd := 6.1078 * (10 : ℝ) ^ ((ab.1 * t) / (ab.2 + t))
  let dd := sdd * (r / 100)
  let v := Real.logb 10 (dd / 6.1078)
  (ab.2 * v) / (ab.1 - v)

/-- Go `math.Round` over ℝ (halves away from zero). -/
noncomputable def goRoundR (x : ℝ) : ℝ :=
  if 0 ≤ x then ⌊x + 1 / 2⌋ else -⌊-x + 1 / 2⌋

/-- Function `roundFloat32` over ℝ, one decimal digit of precision. -/
noncomputable def roundFloat32R (x : ℝ) (p : ℕ) : ℝ :=
  goRoundR (x * 10 ^ p) / 10 ^ p

/-- Dew point as used by the pipeline (line 398):
`roundFloat32(calcDewPoint(t, r), 1)`. -/
noncomputable def pipelineDewPoint (t r : ℝ) : ℝ :=
  roundFloat32R (calcDewPoint t r) 1

/-! Evaluation helpers, shared by the concrete-input theorems below.
Rational arithmetic does not reduce in the kernel (its normalisation is
well-founded recursion), so concrete runs of the embedding are computed
with `norm_num` through these lemmas. -/

lemma int_floor_add_half (n : ℤ) : ⌊(n : ℚ) + 1 / 2⌋ = n := by
  rw [Int.floor_eq_iff]
  constructor <;> linarith

lemma goRound_intCast (n : ℤ) : goRound (n : ℚ) = n := by
  unfold goRound
  split_ifs with h
  · exact int_floor_add_half n
  · rw [show (-(n : ℚ)) = ((-n : ℤ) : ℚ) by push_cast; ring,
      int_floor_add_half (-n)]
    ring

lemma roundFloat32_one (x : ℚ) (n : ℤ) (h : x * 10 = (n : ℚ)) :
    roundFloat32 x 1 = (n : ℚ) / 10 := by
  unfold roundFloat32
  rw [pow_one, h, goRound_intCast]

lemma spikeDetected_iff (s : LoopState) :
    spikeDetected s = true ↔
      1 < |s.dew0 - s.lastDew0| ∨ 1 < |s.dew1 - s.lastDew1| := by
  simp [spikeDetected]

lemma spikeDetected_eq_false (s : LoopState) :
    spikeDetected s = false ↔
      |s.dew0 - s.lastDew0| ≤ 1 ∧ |s.dew1 - s.lastDew1| ≤ 1 := by
  simp [spikeDetected, not_or, not_lt]

lemma readPhase_fst_fanShouldBeOn (dpf : ℚ → ℚ → ℚ) (s : LoopState)
    (inp : CycleInput) :
    (readPhase dpf s inp).1.fanShouldBeOn = s.fanShouldBeOn := rfl


/-- C1: the hysteresis step (lines 410-416) sets the fan desired-state
from `deltaTP = dewPoint(inside) - dewPoint(outside)`: above
`DIFF_MIN + HYSTERESIS` (4.0) it becomes true, below `DIFF_MIN` (3.0)
it becomes false, inside the closed band it keeps its previous value;
at `deltaTP = DIFF_MIN` a previously-false state stays false, and a
false state cannot turn on unless `deltaTP` strictly exceeds
`DIFF_MIN + HYSTERESIS`. -/
theorem hysteresis_band_cases (deltaTP : ℚ) (fan : Bool) :
    (DIFF_MIN + HYSTERESIS < deltaTP → hysteresisStep deltaTP fan = true) ∧
    (deltaTP < DIFF_MIN → hysteresisStep deltaTP fan = false) ∧
    (DIFF_MIN ≤ deltaTP → deltaTP ≤ DIFF_MIN + HYSTERESIS →
      hysteresisStep deltaTP fan = fan) ∧
    (deltaTP ≤ DIFF_MIN + HYSTERESIS → hysteresisStep deltaTP false = false) ∧
    hysteresisStep DIFF_MIN false = false := by
  simp only [hysteresisStep, DIFF_MIN, HYSTERESIS]
  refine ⟨?_, ?_, ?_, ?_, ?_⟩ <;> intros <;> split_ifs <;>
    first | rfl | linarith

/-- Witness for C1: the three regimes at `deltaTP = 5`, `2`, `7/2` and
the no-turn-on bound at `deltaTP = 4`. -/
theorem hysteresis_band_cases_witness :
    hysteresisStep 5 false = true ∧ hysteresisStep 2 true = false ∧
      hysteresisStep (7 / 2) true = true ∧ hysteresisStep 4 false = false :=
  ⟨(hysteresis_band_cases 5 false).1 (by norm_num [DIFF_MIN, HYSTERESIS]),
   (hysteresis_band_cases 2 true).2.1 (by norm_num [DIFF_MIN]),
   (hysteresis_band_cases (7 / 2) true).2.2.1
     (by norm_num [DIFF_MIN]) (by norm_num [DIFF_MIN, HYSTERESIS]),
   (hysteresis_band_cases 4 false).2.2.2.1 (by norm_num [DIFF_MIN, HYSTERESIS])⟩

/-- C2: in a cycle where the decision step runs (readings good, no
spike), any one of the three safety floors — inside temperature below
`TEMP_INSIDE_MIN`, outside temperature below `TEMP_OUTSIDE_MIN`, or
inside humidity below `HUM_INSIDE_MIN` — forces the fan desired-state
to false at the end of the decision step, for every pair of dew points
(hence every delta). -/
theorem safety_floors_force_off (s : LoopState)
    (hspike : spikeDetected s = false)
    (hfloor : s.temp0 < TEMP_INSIDE_MIN ∨ s.temp1 < TEMP_OUTSIDE_MIN ∨
      s.hum0 < HUM_INSIDE_MIN) :
    (decisionPhase s true).fanShouldBeOn = false := by
  simp only [decisionPhase, hspike, if_true, Bool.false_eq_true, if_false]
  simp only [decisionCore]
  rcases hfloor with h | h | h <;> split_ifs <;> rfl

/-- Witness for C2: inside temperature 5 °C is below the floor while
the dew-point delta is 20, far above the on-threshold; the decision
still ends false. -/
theorem safety_floors_force_off_witness :
    spikeDetected ⟨true, 5, 0, 60, 0, 20, 0, 20, 0⟩ = false ∧
      (decisionPhase ⟨true, 5, 0, 60, 0, 20, 0, 20, 0⟩ true).fanShouldBeOn
        = false :=
  ⟨(spikeDetected_eq_false _).mpr (by norm_num),
   safety_floors_force_off ⟨true, 5, 0, 60, 0, 20, 0, 20, 0⟩
     ((spikeDetected_eq_false _).mpr (by norm_num))
     (Or.inl (by norm_num [TEMP_INSIDE_MIN]))⟩

/-- C3: in a cycle where both readings are valid (`readingsGood` holds)
but a dew-point spike is detected (either location differs from its
stored last dew point by more than 1.0), the decision step is skipped
and the fan desired-state keeps its value from the prior cycle. -/
theorem spike_skips_decision (s : LoopState)
    (hspike : spikeDetected s = true) :
    (decisionPhase s true).fanShouldBeOn = s.fanShouldBeOn := by
  simp [decisionPhase, hspike]

/-- Witness for C3: the spec's example — stored last dew point 10.0,
new dew point 11.5 (jump 1.5 > 1.0) — in a readings-good cycle; the
previously-true desired state is unchanged. -/
theorem spike_skips_decision_witness :
    spikeDetected ⟨true, 16, 5, 60, 50, 11.5, 10, 10, 10⟩ = true ∧
      (decisionPhase ⟨true, 16, 5, 60, 50, 11.5, 10, 10, 10⟩
          true).fanShouldBeOn = true :=
  ⟨(spikeDetected_iff _).mpr (Or.inl (by rw [abs_of_nonneg] <;> norm_num)),
   spike_skips_decision ⟨true, 16, 5, 60, 50, 11.5, 10, 10, 10⟩
     ((spikeDetected_iff _).mpr (Or.inl (by rw [abs_of_nonneg] <;> norm_num)))⟩

/-- C4 counterexample: in a readings-good cycle where the spike check
fires (new dew point 11.5 against stored 10.0, jump 1.5 > 1.0), the
stored last dew point is nevertheless overwritten with 11.5 — lines
460-461 sit after the spike `if/else`, inside `if readingsGood`, so
they run in rejected cycles too. -/
theorem lastDew_overwritten_on_spike :
    spikeDetected ⟨false, 0, 0, 0, 0, 11.5, 0, 10, 0⟩ = true ∧
    (decisionPhase ⟨false, 0, 0, 0, 0, 11.5, 0, 10, 0⟩ true).lastDew0 = 11.5 ∧
    ((11.5 : ℚ) ≠ 10) := by
  have hs : spikeDetected ⟨false, 0, 0, 0, 0, 11.5, 0, 10, 0⟩ = true :=
    (spikeDetected_iff _).mpr (Or.inl (by rw [abs_of_nonneg] <;> norm_num))
  exact ⟨hs, by simp [decisionPhase, hs], by norm_num⟩

/-- C4 amended: the stored last dew points are assigned the cycle's dew
points in every readings-good cycle, spike-rejected or not; they are
left unchanged exactly when the cycle's readings are not good. -/
theorem lastDew_update_rule (s : LoopState) :
    ((decisionPhase s true).lastDew0 = s.dew0 ∧
      (decisionPhase s true).lastDew1 = s.dew1) ∧
    ((decisionPhase s false).lastDew0 = s.lastDew0 ∧
      (decisionPhase s false).lastDew1 = s.lastDew1) := by
  refine ⟨?_, by simp [decisionPhase]⟩
  by_cases h : spikeDetected s = true
  · simp [decisionPhase, h]
  · simp only [Bool.not_eq_true] at h
    simp [decisionPhase, h]

/-- C5: the remote override has highest priority and reverts cleanly:
`remoteOverride = 1` (ForceOn) makes the final actuator command on
(relay driven low) and `remoteOverride = 2` (ForceOff) makes it off,
regardless of the computed desired value; with the override cleared to
0 (None) the cycle's actuator command equals exactly what the decision
engine computes for that cycle. -/
theorem remote_override_priority (dpf : ℚ → ℚ → ℚ) (s : LoopState)
    (inp : CycleInput) :
    (inp.remoteOverride = 1 → (cycleStep dpf s inp).fanRelayLow = true) ∧
    (inp.remoteOverride = 2 → (cycleStep dpf s inp).fanRelayLow = false) ∧
    (inp.remoteOverride = 0 →
      (cycleStep dpf s inp).fanRelayLow =
        (decisionPhase (readPhase dpf s inp).1
          (readPhase dpf s inp).2).fanShouldBeOn) := by
  refine ⟨?_, ?_, ?_⟩ <;> intro h <;>
    simp [cycleStep, applyRemoteOverride, h]

/-- Witness for C5: with both reads failed and the computed desired
state false, override 1 turns the relay on, override 2 turns it off,
and override 0 leaves the decision engine's value in command. -/
theorem remote_override_priority_witness :
    (cycleStep (fun _ _ => 0) ⟨false, 0, 0, 0, 0, 0, 0, 0, 0⟩
        ⟨⟨0, -1, 0, true⟩, ⟨0, -1, 0, true⟩, 1, false⟩).fanRelayLow = true ∧
    (cycleStep (fun _ _ => 0) ⟨false, 0, 0, 0, 0, 0, 0, 0, 0⟩
        ⟨⟨0, -1, 0, true⟩, ⟨0, -1, 0, true⟩, 2, false⟩).fanRelayLow = false ∧
    (cycleStep (fun _ _ => 0) ⟨false, 0, 0, 0, 0, 0, 0, 0, 0⟩
        ⟨⟨0, -1, 0, true⟩, ⟨0, -1, 0, true⟩, 0, false⟩).fanRelayLow =
      (decisionPhase
        (readPhase (fun _ _ => 0) ⟨false, 0, 0, 0, 0, 0, 0, 0, 0⟩
          ⟨⟨0, -1, 0, true⟩, ⟨0, -1, 0, true⟩, 0, false⟩).1
        (readPhase (fun _ _ => 0) ⟨false, 0, 0, 0, 0, 0, 0, 0, 0⟩
          ⟨⟨0, -1, 0, true⟩, ⟨0, -1, 0, true⟩, 0, false⟩).2).fanShouldBeOn :=
  ⟨(remote_override_priority _ _ _).1 rfl,
   (remote_override_priority _ _ _).2.1 rfl,
   (remote_override_priority _ _ _).2.2 rfl⟩

/-- C8 amended: when a sensor read fails after its retry budget, the
sensor's `good` flag is cleared (so the cycle's overall reading is not
good, the decision step is skipped and the prior desired state
persists in the absence of a remote override); the stored temperature
and humidity for that sensor are however assigned the values returned
by the failed call (Go multiple assignment at line 383), not the
previously held valid values. -/
theorem read_failure_effects (dpf : ℚ → ℚ → ℚ) (corrT corrH prevDew : ℚ)
    (r : ReadResult) (s : LoopState) (inp : CycleInput) :
    (r.failed = true →
      (readSensor dpf corrT corrH prevDew r).good = false ∧
      (readSensor dpf corrT corrH prevDew r).temp = r.temp ∧
      (readSensor dpf corrT corrH prevDew r).hum = r.hum) ∧
    (inp.read0.failed = true → inp.remoteOverride ≤ 0 →
      (cycleStep dpf s inp).state.fanShouldBeOn = s.fanShouldBeOn) := by
  have key : ∀ (cT cH pd : ℚ) (rr : ReadResult), rr.failed = true →
      (readSensor dpf cT cH pd rr).good = false ∧
      (readSensor dpf cT cH pd rr).temp = rr.temp ∧
      (readSensor dpf cT cH pd rr).hum = rr.hum := by
    intro cT cH pd rr hf
    simp only [readSensor, hf]
    split_ifs <;> simp
  refine ⟨key _ _ _ r, ?_⟩
  intro hf hro
  have hnro : ¬ (0 : ℤ) < inp.remoteOverride := not_lt.mpr hro
  have hg : (readPhase dpf s inp).2 = false := by
    simp only [readPhase]
    simp [(key _ _ _ inp.read0 hf).1]
  simp only [cycleStep, applyRemoteOverride, if_neg hnro]
  simp [decisionPhase, hg, readPhase_fst_fanShouldBeOn]

/-- Witness for C8 amended: concrete failed first read with a
non-positive override; the desired state persists. -/
theorem read_failure_effects_witness :
    (readSensor (fun _ _ => 0) (-4) 10 0 ⟨-1, -1, 15, true⟩).good = false ∧
    (cycleStep (fun _ _ => 0) ⟨true, 20.5, 0, 55, 0, 0, 0, 0, 0⟩
        ⟨⟨-1, -1, 15, true⟩, ⟨-1, -1, 15, true⟩, 0, false⟩).state.fanShouldBeOn
      = true :=
  ⟨((read_failure_effects (fun _ _ => 0) (-4) 10 0 ⟨-1, -1, 15, true⟩
      ⟨true, 20.5, 0, 55, 0, 0, 0, 0, 0⟩
      ⟨⟨-1, -1, 15, true⟩, ⟨-1, -1, 15, true⟩, 0, false⟩).1 rfl).1,
   (read_failure_effects (fun _ _ => 0) (-4) 10 0 ⟨-1, -1, 15, true⟩
      ⟨true, 20.5, 0, 55, 0, 0, 0, 0, 0⟩
      ⟨⟨-1, -1, 15, true⟩, ⟨-1, -1, 15, true⟩, 0, false⟩).2 rfl (by decide)⟩

/-- C8 counterexample: the previously held valid inside temperature
20.5 is overwritten by the failed read's returned value -1 (Go
multiple assignment at line 383 stores the returned values even when
`err != nil`), so prior values are not kept. -/
theorem read_failure_overwrites_values :
    (cycleStep (fun _ _ => 0) ⟨false, 20.5, 0, 55, 0, 0, 0, 0, 0⟩
        ⟨⟨-1, -1, 15, true⟩, ⟨-1, -1, 15, true⟩, 0, false⟩).state.temp0
      = -1 ∧
    ((-1 : ℚ) ≠ 20.5) := by
  constructor
  · norm_num [cycleStep, readPhase, readSensor, decisionPhase,
      applyRemoteOverride, spikeDetected, DEF_TEMP, DEF_HUM,
      getTempCorrections, getHumCorrections]
  · norm_num

/-- C9: per-cycle invariant — the fan desired-state is never changed
by the manual-switch input (GPIO22 is reporting-only telemetry: the
successor desired-state is identical for any pin level), and when the
decision block does not run (bad readings or spike) and no remote
override is active, the desired state is exactly its prior value. -/
theorem fan_state_frame (dpf : ℚ → ℚ → ℚ) (s : LoopState) (inp : CycleInput)
    (b : Bool) :
    ((cycleStep dpf s { inp with pin22High := b }).state.fanShouldBeOn =
      (cycleStep dpf s inp).state.fanShouldBeOn) ∧
    (((readPhase dpf s inp).2 = false ∨
        spikeDetected (readPhase dpf s inp).1 = true) →
      inp.remoteOverride ≤ 0 →
      (cycleStep dpf s inp).state.fanShouldBeOn = s.fanShouldBeOn) := by
  constructor
  · rfl
  · intro hskip hro
    have hnro : ¬ (0 : ℤ) < inp.remoteOverride := not_lt.mpr hro
    simp only [cycleStep, applyRemoteOverride, if_neg hnro]
    rcases hskip with h | h
    · simp [decisionPhase, h, readPhase_fst_fanShouldBeOn]
    · by_cases hg : (readPhase dpf s inp).2 = true
      · simp [decisionPhase, hg, h, readPhase_fst_fanShouldBeOn]
      · simp only [Bool.not_eq_true] at hg
        simp [decisionPhase, hg, readPhase_fst_fanShouldBeOn]

/-- Witness for C9: failed reads, no override; the desired state
persists and flipping the manual-switch pin does not change it. -/
theorem fan_state_frame_witness :
    (readPhase (fun _ _ => 0) ⟨true, 0, 0, 0, 0, 0, 0, 0, 0⟩
        ⟨⟨0, -1, 0, true⟩, ⟨0, -1, 0, true⟩, 0, false⟩).2 = false ∧
    (cycleStep (fun _ _ => 0) ⟨true, 0, 0, 0, 0, 0, 0, 0, 0⟩
        ⟨⟨0, -1, 0, true⟩, ⟨0, -1, 0, true⟩, 0, false⟩).state.fanShouldBeOn
      = true := by
  have hgood : (readPhase (fun _ _ => 0) ⟨true, 0, 0, 0, 0, 0, 0, 0, 0⟩
      ⟨⟨0, -1, 0, true⟩, ⟨0, -1, 0, true⟩, 0, false⟩).2 = false := by
    norm_num [readPhase, readSensor, DEF_TEMP, DEF_HUM,
      getTempCorrections, getHumCorrections]
  exact ⟨hgood,
    (fan_state_frame (fun _ _ => 0) ⟨true, 0, 0, 0, 0, 0, 0, 0, 0⟩
      ⟨⟨0, -1, 0, true⟩, ⟨0, -1, 0, true⟩, 0, false⟩ false).2
      (Or.inl hgood) (by decide)⟩

/-- C10: the remote override is an unvalidated integer — value 1
forces the actuator on, every value ≥ 2 (not only 2) forces it off,
every value ≤ 0 (including negatives) leaves the computed decision in
effect; and the cycle's actuator command is exactly the override
function applied to the decision engine's output. -/
theorem override_integer_semantics (v : ℤ) (d : Bool) (dpf : ℚ → ℚ → ℚ)
    (s : LoopState) (inp : CycleInput) :
    (v = 1 → applyRemoteOverride v d = true) ∧
    (2 ≤ v → applyRemoteOverride v d = false) ∧
    (v ≤ 0 → applyRemoteOverride v d = d) ∧
    (cycleStep dpf s inp).fanRelayLow =
      applyRemoteOverride inp.remoteOverride
        (decisionPhase (readPhase dpf s inp).1
          (readPhase dpf s inp).2).fanShouldBeOn := by
  refine ⟨?_, ?_, ?_, rfl⟩
  · intro h
    simp [applyRemoteOverride, h]
  · intro h
    have h1 : ¬ v = 1 := by omega
    have h0 : (0 : ℤ) < v := by omega
    simp [applyRemoteOverride, h0, h1]
  · intro h
    have h0 : ¬ (0 : ℤ) < v := by omega
    simp [applyRemoteOverride, h0]

/-- Witness for C10: override 1 forces on, override 5 (≥ 2, not only
2) forces off, override -3 (≤ 0) leaves the computed value. -/
theorem override_integer_semantics_witness :
    applyRemoteOverride 1 false = true ∧
    applyRemoteOverride 5 true = false ∧
    applyRemoteOverride (-3) true = true :=
  ⟨(override_integer_semantics 1 false (fun _ _ => 0)
      ⟨false, 0, 0, 0, 0, 0, 0, 0, 0⟩
      ⟨⟨0, -1, 0, true⟩, ⟨0, -1, 0, true⟩, 0, false⟩).1 rfl,
   (override_integer_semantics 5 true (fun _ _ => 0)
      ⟨false, 0, 0, 0, 0, 0, 0, 0, 0⟩
      ⟨⟨0, -1, 0, true⟩, ⟨0, -1, 0, true⟩, 0, false⟩).2.1 (by norm_num),
   (override_integer_semantics (-3) true (fun _ _ => 0)
      ⟨false, 0, 0, 0, 0, 0, 0, 0, 0⟩
      ⟨⟨0, -1, 0, true⟩, ⟨0, -1, 0, true⟩, 0, false⟩).2.2.1 (by norm_num)⟩

/-- C6 counterexample: a successful outside-sensor read of raw
humidity 6.0 is corrected by -6.0 to 0.0, which passes the upstream
guard (`0 > DEF_HUM = -1`) — the dew-point calculator is invoked with
`r = 0`, not `r > 0`, so the log-of-non-positive branch is reachable. -/
theorem dewpoint_called_with_zero_humidity :
    readSensorCallArgs 0 (-6) ⟨20, 6, 0, false⟩ = some (20, 0) ∧
    ¬ (0 < (0 : ℚ)) := by
  have e1 : roundFloat32 (20 : ℚ) 1 = 20 := by
    rw [roundFloat32_one _ 200 (by norm_num)]
    norm_num
  have e2 : roundFloat32 (0 : ℚ) 1 = 0 := by
    rw [roundFloat32_one _ 0 (by norm_num)]
    norm_num
  constructor
  · norm_num [readSensorCallArgs, e1, e2, DEF_TEMP, DEF_HUM]
  · norm_num

/-- C6 amended: the upstream guard (lines 393-397) ensures that every
invocation of the dew-point calculator has `-20 ≤ t ≤ 40` and
`r > DEF_HUM = -1` (not `r > 0`), the recorded call arguments describe
the computed dew point faithfully, and on the guarded temperature
range the denominator `b + t` of `calcDewPoint` is nonzero (`t ≠ -b`),
so its division-by-zero branch is unreachable. -/
theorem dewpoint_call_args_guarded (dpf : ℚ → ℚ → ℚ)
    (corrT corrH prevDew t h : ℚ) (r : ReadResult) :
    (readSensorCallArgs corrT corrH r = some (t, h) →
      -20 ≤ t ∧ t ≤ 40 ∧ DEF_HUM < h ∧
      (readSensor dpf corrT corrH prevDew r).dew = roundFloat32 (dpf t h) 1) ∧
    (readSensorCallArgs corrT corrH r = none →
      (readSensor dpf corrT corrH prevDew r).dew = prevDew) ∧
    (∀ tr : ℝ, -20 ≤ tr → tr ≤ 40 → bConst tr + tr ≠ 0) := by
  refine ⟨?_, ?_, ?_⟩
  · intro hsome
    simp only [readSensorCallArgs] at hsome
    simp only [readSensor]
    set tv := if r.failed then r.temp else roundFloat32 (r.temp + corrT) 1
      with htv
    set hv := if r.failed then r.hum else roundFloat32 (r.hum + corrH) 1
      with hhv
    split_ifs at hsome with h1 h2
    simp only [Option.some.injEq, Prod.mk.injEq] at hsome
    obtain ⟨rfl, rfl⟩ := hsome
    rw [if_pos h1, if_neg h2]
    rw [not_or] at h2
    exact ⟨not_lt.mp h2.1, not_lt.mp h2.2, h1.2, rfl⟩
  · intro hnone
    simp only [readSensorCallArgs] at hnone
    simp only [readSensor]
    set tv := if r.failed then r.temp else roundFloat32 (r.temp + corrT) 1
      with htv
    set hv := if r.failed then r.hum else roundFloat32 (r.hum + corrH) 1
      with hhv
    split_ifs at hnone ⊢ <;> rfl
  · intro tr hA hB
    unfold bConst
    split_ifs
    · exact ne_of_gt (by linarith)
    · exact ne_of_gt (by linarith)

/-- Witness for C6 amended: the inside sensor reading 24.0 °C / 45.0 %
is corrected to 20.0 °C / 55.0 %, the call is recorded at (20, 55),
the bounds hold, and the stored dew point is the rounded calculator
output. -/
theorem dewpoint_call_args_guarded_witness :
    readSensorCallArgs (-4) 10 ⟨24, 45, 0, false⟩ = some (20, 55) ∧
    (-20 ≤ (20 : ℚ) ∧ (20 : ℚ) ≤ 40 ∧ DEF_HUM < (55 : ℚ) ∧
      (readSensor (fun _ _ => 12.6) (-4) 10 0 ⟨24, 45, 0, false⟩).dew =
        roundFloat32 ((fun _ _ => (12.6 : ℚ)) (20 : ℚ) (55 : ℚ)) 1) := by
  have e1 : roundFloat32 (20 : ℚ) 1 = 20 := by
    rw [roundFloat32_one _ 200 (by norm_num)]
    norm_num
  have e2 : roundFloat32 (55 : ℚ) 1 = 55 := by
    rw [roundFloat32_one _ 550 (by norm_num)]
    norm_num
  have hsome : readSensorCallArgs (-4) 10 ⟨24, 45, 0, false⟩ = some (20, 55) := by
    norm_num [readSensorCallArgs, e1, e2, DEF_TEMP, DEF_HUM]
  exact ⟨hsome,
    (dewpoint_call_args_guarded (fun _ _ => 12.6) (-4) 10 0 20 55
      ⟨24, 45, 0, false⟩).1 hsome⟩

/-- C7: the dew-point calculator implements exactly the spec formula —
constants `(a, b) = (7.5, 237.3)` for `t ≥ 0` (including exactly
`t = 0`) and `(7.6, 240.7)` for `t < 0`, then
`sdd = 6.1078·10^(a·t/(b+t))`, `dd = sdd·(r/100)`,
`v = log10(dd/6.1078)`, result `(b·v)/(a−v)` — and the pipeline rounds
that result to one decimal place before use. -/
theorem calcDewPoint_formula (t r : ℝ) :
    calcDewPoint t r = dewPointSpec t r ∧
    (0 ≤ t → aConst t = 7.5 ∧ bConst t = 237.3) ∧
    (t < 0 → aConst t = 7.6 ∧ bConst t = 240.7) ∧
    pipelineDewPoint t r = roundFloat32R (dewPointSpec t r) 1 := by
  have hs : calcDewPoint t r = dewPointSpec t r := by
    by_cases hp : 0 ≤ t <;>
      simp [calcDewPoint, dewPointSpec, aConst, bConst, hp]
  refine ⟨hs, ?_, ?_, ?_⟩
  · intro hp
    simp [aConst, bConst, hp]
  · intro hn
    simp [aConst, bConst, not_le.mpr hn]
  · simp [pipelineDewPoint, hs]

/-- Witness for C7: at the freezing boundary `t = 0` the above-zero
constants are chosen, and at `t = -1` the below-zero constants. -/
theorem calcDewPoint_formula_witness :
    (aConst 0 = 7.5 ∧ bConst 0 = 237.3) ∧
    (aConst (-1) = 7.6 ∧ bConst (-1) = 240.7) :=
  ⟨(calcDewPoint_formula 0 50).2.1 le_rfl,
   (calcDewPoint_formula (-1) 50).2.2.1 (by norm_num)⟩

end DewPointFan
